import Mathlib

/-!
Verification of the webhook image-generation bot (`src/bot_webhook.py`).

The program is a single-file adapter: a Flask webhook receiver dispatches
Telegram chat updates to the generation pipeline `generate_image_replicate`,
which calls the Replicate API, downloads the resulting image over HTTP, and
replies to the chat.

The shallow embedding below models the pipeline as a function from the
process configuration, the incoming prompt, and an environment describing the
outcome of every external call (Replicate invocation, HTTP download, and each
Telegram messaging call site) to the list of observable outbound actions the
pipeline performs, in order, together with the exception it propagates (if
any) and the final state of the one mutable process-wide configuration cell
the code writes (the `REPLICATE_API_TOKEN` entry of `os.environ`, line 67 of
the source).  Module-level configuration bindings (`TELEGRAM_BOT_TOKEN`,
`REPLICATE_API_TOKEN`, `WEBHOOK_HOSTNAME`) are never reassigned in the
source, so they appear as immutable record fields here.
-/

namespace BotWebhook

/-- Python exception classes relevant to the pipeline's `except` clauses:
`requests.exceptions.RequestException` (raised by `requests.get` and by
`Response.raise_for_status`) versus every other `Exception`. -/
inductive PyErr where
  | reqErr
  | genErr
deriving DecidableEq, Repr

/-- An observable outbound action of the pipeline, recorded at the moment the
call is attempted (whether or not the call itself then raises). -/
inductive Event where
  | sendText (msg : String)
  | genCall (prompt : String)
  | download (url : String)
  | sendPhoto (caption : String)
  | deleteMsg
deriving DecidableEq, Repr

/-- `"Please provide a text prompt!"` (line 57). -/
def emptyPromptMsg : String := "Please provide a text prompt!"

/-- The configuration-error reply (lines 61-63). -/
def noTokenMsg : String :=
  "Replicate API token not set. Cannot generate image. Please inform the bot administrator."

/-- The interim status message (line 69). -/
def interimMsg (prompt : String) : String :=
  "Generating image for: \x27" ++ prompt ++ "\x27\nThis might take a while..."

/-- The caption of the photo reply (line 91). -/
def photoCaption (prompt : String) : String :=
  "Generated for: \x27" ++ prompt ++ "\x27"

/-- The malformed/empty-output error reply (line 95). -/
def noOutputMsg : String :=
  "Failed to generate image. No output from Replicate or unexpected format."

/-- The download-failure error reply (line 100). -/
def downloadFailMsg : String :=
  "Failed to download generated image. Please try again."

/-- The catch-all error reply (lines 105-108). -/
def genericErrMsg : String :=
  "An error occurred during image generation. Please try again later or with a simpler prompt.\nEnsure your Replicate API token is correct and valid."

/-- The placeholder default of `os.getenv("REPLICATE_API_TOKEN", ...)` (line 22). -/
def PLACEHOLDER : String := "YOUR_REPLICATE_API_TOKEN"

/-- Process-wide configuration, read from environment variables at import
time (lines 20-25) and never reassigned by the source. -/
structure Config where
  telegramToken : String
  replicateToken : String
  webhookHostname : Option String
deriving DecidableEq, Repr

/-- The outcome of every external call the pipeline can make, one field per
call site of the source.  `Except.error e` means that call raises the Python
exception `e`; `Except.ok` is a normal return.  `replicateRun` returning
`some l` models `replicate.run` returning the list `l` of result URLs, while
`none` models a non-list / falsy output (line 83 checks
`output and isinstance(output, list) and len(output) > 0`).  `requestsGet`
returning `ok s` models `requests.get` returning a response with HTTP status
`s`. -/
structure Env where
  replyEmpty : Except PyErr Unit
  replyNoToken : Except PyErr Unit
  replyInterim : Except PyErr Unit
  replicateRun : Except PyErr (Option (List String))
  requestsGet : Except PyErr Nat
  replyPhoto : Except PyErr Unit
  deleteAfterPhoto : Except PyErr Unit
  replyNoOutput : Except PyErr Unit
  deleteAfterNoOutput : Except PyErr Unit
  replyDownloadFail : Except PyErr Unit
  deleteInReqHandler : Except PyErr Unit
  replyGeneric : Except PyErr Unit
  deleteInGenHandler : Except PyErr Unit
deriving Repr

/-- `Response.raise_for_status` of the requests library: raises an
`HTTPError` (a `RequestException`) exactly when the status code is a 4xx
client error or 5xx server error, i.e. `400 <= status < 600`; any other
status (including non-2xx statuses such as 304) returns normally. -/
def raise_for_status (status : Nat) : Except PyErr Unit :=
  if 400 ≤ status ∧ status < 600 then .error .reqErr else .ok ()

/-- Sequencing of one external call: record the attempted action `ev`; if the
call raises, the exception aborts the sequence, otherwise continue with `k`
on the returned value. -/
def act {α : Type} (ev : Event) (r : Except PyErr α)
    (k : α → List Event × Option PyErr) : List Event × Option PyErr :=
  match r with
  | .error e => ([ev], some e)
  | .ok a =>
      let (t, err) := k a
      (ev :: t, err)

/-- Sequencing of a pure step that may raise (no outbound action of its
own). -/
def step {α : Type} (r : Except PyErr α)
    (k : α → List Event × Option PyErr) : List Event × Option PyErr :=
  match r with
  | .error e => ([], some e)
  | .ok a => k a

/-- The body of the `try` block (lines 72-96): invoke Replicate, and on a
non-empty list output download the first URL, send the photo and delete the
interim message; otherwise send the malformed-output reply and delete the
interim message.  Returns the actions performed and the exception the block
raises, if any. -/
def tryBody (prompt : String) (env : Env) : List Event × Option PyErr :=
  act (.genCall prompt) env.replicateRun fun output =>
    match output with
    | some (imageUrl :: _) =>
        act (.download imageUrl) env.requestsGet fun status =>
          step (raise_for_status status) fun _ =>
            act (.sendPhoto (photoCaption prompt)) env.replyPhoto fun _ =>
              act .deleteMsg env.deleteAfterPhoto fun _ => ([], none)
    | _ =>
        act (.sendText noOutputMsg) env.replyNoOutput fun _ =>
          act .deleteMsg env.deleteAfterNoOutput fun _ => ([], none)

/-- The `except` clauses (lines 98-110): a `RequestException` sends the
download-failure reply and deletes the interim message; any other exception
sends the generic error reply and deletes the interim message.  (The
`if sent_message:` guards are always true at these points: the handlers are
reachable only after the interim reply on line 69 returned a message
object.)  Exceptions raised by the handler's own calls propagate. -/
def exceptHandlers (e : PyErr) (env : Env) : List Event × Option PyErr :=
  match e with
  | .reqErr =>
      act (.sendText downloadFailMsg) env.replyDownloadFail fun _ =>
        act .deleteMsg env.deleteInReqHandler fun _ => ([], none)
  | .genErr =>
      act (.sendText genericErrMsg) env.replyGeneric fun _ =>
        act .deleteMsg env.deleteInGenHandler fun _ => ([], none)

/-- The result of one pipeline invocation: the observable outbound actions in
order, the exception that propagates out of the coroutine (if any), and the
final value of the `REPLICATE_API_TOKEN` entry of `os.environ`. -/
structure RunResult where
  trace : List Event
  raised : Option PyErr
  environ : Option String
deriving DecidableEq, Repr

/-- `generate_image_replicate` (lines 52-110).  `prompt` is
`update.message.text` (`none` models absent text); `environ` is the value of
the `REPLICATE_API_TOKEN` process-environment entry before the call.  Python
`if not prompt:` takes the branch exactly for `None` and the empty string.
After the two guards, line 67 writes
`os.environ["REPLICATE_API_TOKEN"] = REPLICATE_API_TOKEN`. -/
def generate_image_replicate (cfg : Config) (prompt : Option String)
    (env : Env) (environ : Option String) : RunResult :=
  match prompt with
  | none =>
      let (t, e) := act (.sendText emptyPromptMsg) env.replyEmpty fun _ => ([], none)
      ⟨t, e, environ⟩
  | some p =>
      if p = "" then
        let (t, e) := act (.sendText emptyPromptMsg) env.replyEmpty fun _ => ([], none)
        ⟨t, e, environ⟩
      else if cfg.replicateToken = PLACEHOLDER then
        let (t, e) := act (.sendText noTokenMsg) env.replyNoToken fun _ => ([], none)
        ⟨t, e, environ⟩
      else
        let environAfterWrite : Option String := some cfg.replicateToken
        let (t, e) :=
          act (.sendText (interimMsg p)) env.replyInterim fun _ =>
            let (tb, err) := tryBody p env
            match err with
            | none => (tb, none)
            | some ex =>
                let (th, err2) := exceptHandlers ex env
                (tb ++ th, err2)
        ⟨t, e, environAfterWrite⟩

/-- The configuration the source builds at import time (lines 20-25) from the
process environment: each token falls back to its placeholder default, the
hostname has no default. -/
def configFromEnviron (telegramEnv replicateEnv hostnameEnv : Option String) : Config :=
  ⟨telegramEnv.getD "YOUR_TELEGRAM_BOT_TOKEN", replicateEnv.getD PLACEHOLDER, hostnameEnv⟩

/-- HTTP methods as seen by the Flask router. -/
inductive Method where
  | get
  | post
  | other
deriving DecidableEq, Repr

/-- An HTTP response: status code and body. -/
structure HttpResponse where
  status : Nat
  body : String
deriving DecidableEq, Repr

/-- A well-formed decoded chat update (`Update.de_json`, line 122). -/
structure ChatUpdate where
  chatId : Int
  messageId : Int
  text : Option String
deriving DecidableEq, Repr

/-- The JSON acknowledgement body `jsonify({"status": "ok"})` (line 125). -/
def ackBody : String := "\x7b\"status\": \"ok\"\x7d"

/-- The webhook endpoint (lines 118-126) as dispatched by Flask for the path
`/webhook` registered with `methods=["POST"]`: a non-POST request is rejected
with 405; a POST body is decoded and handed to `asyncio.create_task` (the
second component: the scheduled update, `none` when nothing is scheduled),
and the handler returns `200` with the JSON acknowledgement.  The response is
computed before the scheduled task runs, so it takes no pipeline environment:
it cannot depend on the downstream pipeline's outcome. -/
def webhook_handler (m : Method) (u : ChatUpdate) : HttpResponse × Option ChatUpdate :=
  match m with
  | .post => (⟨200, ackBody⟩, some u)
  | _ => (⟨405, "Method Not Allowed"⟩, none)

@[simp] theorem act_ok {α : Type} (ev : Event) (a : α)
    (k : α → List Event × Option PyErr) :
    act ev (.ok a) k = ((k a).1.cons ev, (k a).2) := by
  simp [act]

@[simp] theorem act_error {α : Type} (ev : Event) (e : PyErr)
    (k : α → List Event × Option PyErr) :
    act ev (.error e) k = ([ev], some e) := rfl

@[simp] theorem step_ok {α : Type} (a : α)
    (k : α → List Event × Option PyErr) :
    step (.ok a) k = k a := rfl

@[simp] theorem step_error {α : Type} (e : PyErr)
    (k : α → List Event × Option PyErr) :
    step (.error e) k = ([], some e) := rfl

/-- Python `if not prompt:` (line 56): true exactly for absent text and the
empty string. -/
def promptEmpty (prompt : Option String) : Prop :=
  prompt = none ∨ prompt = some ""

instance (prompt : Option String) : Decidable (promptEmpty prompt) := by
  unfold promptEmpty; infer_instance

instance {ε α : Type} [DecidableEq ε] [DecidableEq α] : DecidableEq (Except ε α) := fun a b =>
  match a, b with
  | .error e, .error f => decidable_of_iff (e = f) (by simp)
  | .ok x, .ok y => decidable_of_iff (x = y) (by simp)
  | .error _, .ok _ => .isFalse (by intro h; cases h)
  | .ok _, .error _ => .isFalse (by intro h; cases h)

/-- All messaging-platform calls of the invocation return normally. -/
def sendsOk (env : Env) : Prop :=
  env.replyEmpty = .ok () ∧ env.replyNoToken = .ok () ∧ env.replyInterim = .ok () ∧
  env.replyPhoto = .ok () ∧ env.deleteAfterPhoto = .ok () ∧
  env.replyNoOutput = .ok () ∧ env.deleteAfterNoOutput = .ok () ∧
  env.replyDownloadFail = .ok () ∧ env.deleteInReqHandler = .ok () ∧
  env.replyGeneric = .ok () ∧ env.deleteInGenHandler = .ok ()

instance (env : Env) : Decidable (sendsOk env) := by
  unfold sendsOk; infer_instance

/-- The five human-readable error replies of the source. -/
def errorMsgs : List String :=
  [emptyPromptMsg, noTokenMsg, noOutputMsg, downloadFailMsg, genericErrMsg]

/-- The trace contains a human-readable error reply. -/
def errorReply (t : List Event) : Prop :=
  ∃ m ∈ errorMsgs, Event.sendText m ∈ t

instance (t : List Event) : Decidable (errorReply t) := by
  unfold errorReply; infer_instance

/-- A failure rejected before the interim message is sent: empty prompt, or
non-empty prompt with the placeholder credential (lines 56-64). -/
def preFailure (cfg : Config) (prompt : Option String) : Prop :=
  promptEmpty prompt ∨ (¬ promptEmpty prompt ∧ cfg.replicateToken = PLACEHOLDER)

/-- A failure occurring after the interim message is sent: the generation
call raises, returns a malformed or empty output, or the download raises or
yields a 4xx/5xx status. -/
def postFailure (cfg : Config) (prompt : Option String) (env : Env) : Prop :=
  ¬ promptEmpty prompt ∧ cfg.replicateToken ≠ PLACEHOLDER ∧
  ((∃ e, env.replicateRun = .error e) ∨
   env.replicateRun = .ok none ∨ env.replicateRun = .ok (some []) ∨
   (∃ l, env.replicateRun = .ok (some l) ∧ l ≠ [] ∧
     ((∃ e, env.requestsGet = .error e) ∨
      (∃ s, env.requestsGet = .ok s ∧ 400 ≤ s ∧ s < 600))))

/-- An environment in which every external call succeeds: the generation
call returns one result URL and the download returns HTTP 200. -/
def okEnv : Env :=
  ⟨.ok (), .ok (), .ok (), .ok (some ["https://replicate.delivery/out.png"]),
   .ok 200, .ok (), .ok (), .ok (), .ok (), .ok (), .ok (), .ok (), .ok ()⟩

/-- A configuration with both credentials set (no placeholder). -/
def cfgA : Config := ⟨"tg-token", "replicate-token", some "bot.onrender.com"⟩

/-- C5: for every pipeline invocation whose prompt is empty (absent text or
the empty string), the pipeline's observable actions are exactly one reply —
the "please provide a prompt" message — so in particular no outbound
generation call is performed, and the configuration entry is untouched. -/
theorem empty_prompt_single_reply_no_gen (cfg : Config) (prompt : Option String)
    (env : Env) (environ : Option String) (h : promptEmpty prompt) :
    (generate_image_replicate cfg prompt env environ).trace = [.sendText emptyPromptMsg] ∧
    (generate_image_replicate cfg prompt env environ).environ = environ := by
  rcases h with h | h <;> subst h <;>
    rcases henv : env.replyEmpty with e | u <;>
      simp [generate_image_replicate, henv]

/-- Witness for C5 at the concrete empty-string prompt. -/
theorem empty_prompt_single_reply_no_gen_witness :
    promptEmpty (some "") ∧
    ((generate_image_replicate cfgA (some "") okEnv none).trace = [.sendText emptyPromptMsg] ∧
     (generate_image_replicate cfgA (some "") okEnv none).environ = none) :=
  ⟨Or.inr rfl, empty_prompt_single_reply_no_gen cfgA (some "") okEnv none (Or.inr rfl)⟩

/-- C6: for every pipeline invocation with a non-empty prompt but the
placeholder service credential, the pipeline's observable actions are
exactly one configuration-error reply, so no outbound generation call is
performed. -/
theorem missing_token_single_reply_no_gen (cfg : Config) (p : String)
    (env : Env) (environ : Option String)
    (hp : p ≠ "") (ht : cfg.replicateToken = PLACEHOLDER) :
    (generate_image_replicate cfg (some p) env environ).trace = [.sendText noTokenMsg] := by
  rcases henv : env.replyNoToken with e | u <;>
    simp [generate_image_replicate, hp, ht, henv]

/-- Witness for C6 at a concrete prompt and the placeholder credential. -/
theorem missing_token_single_reply_no_gen_witness :
    ("a cat" ≠ "" ∧ (Config.mk "tg" PLACEHOLDER none).replicateToken = PLACEHOLDER) ∧
    (generate_image_replicate ⟨"tg", PLACEHOLDER, none⟩ (some "a cat") okEnv none).trace =
      [.sendText noTokenMsg] :=
  ⟨⟨by decide, rfl⟩,
   missing_token_single_reply_no_gen ⟨"tg", PLACEHOLDER, none⟩ "a cat" okEnv none (by decide) rfl⟩

/-- C3: process-wide configuration is not mutated by any pipeline
invocation.  The module-level bindings are never reassigned (they are
immutable fields of `Config` in this embedding); the one write the pipeline
performs — `os.environ["REPLICATE_API_TOKEN"] = REPLICATE_API_TOKEN` on line
67 — rewrites the startup value, so for every execution of the pipeline
starting from the configuration built at import time, the configuration
state after the call equals the configuration state before it. -/
theorem config_state_preserved (tgEnv repEnv hostEnv : Option String)
    (prompt : Option String) (env : Env) :
    (generate_image_replicate (configFromEnviron tgEnv repEnv hostEnv)
        prompt env repEnv).environ = repEnv := by
  rcases prompt with _ | p
  · simp [generate_image_replicate]
  · by_cases hp : p = ""
    · simp [generate_image_replicate, hp]
    · by_cases ht : (configFromEnviron tgEnv repEnv hostEnv).replicateToken = PLACEHOLDER
      · simp [generate_image_replicate, hp, ht]
      · rcases repEnv with _ | v
        · exact absurd rfl ht
        · by_cases hv : v = PLACEHOLDER <;>
            simp [generate_image_replicate, hp, configFromEnviron, hv]

/-- The `try` block always records the generation call first: line 73 runs
before anything else inside the block. -/
theorem tryBody_head (p : String) (env : Env) :
    (tryBody p env).1 = .genCall p :: (tryBody p env).1.tail := by
  rcases hr : env.replicateRun with e | output <;> simp [tryBody, hr]

/-- C9: a prompt consisting of whitespace characters (hence non-empty as a
string) is not treated as empty: the pipeline sends the interim message and
then performs the outbound generation call with that whitespace prompt. -/
theorem whitespace_prompt_not_treated_empty (cfg : Config) (s : String)
    (env : Env) (environ : Option String)
    (hs : s ≠ "") (_hw : s.toList.all Char.isWhitespace)
    (ht : cfg.replicateToken ≠ PLACEHOLDER) (hi : env.replyInterim = .ok ()) :
    ∃ rest, (generate_image_replicate cfg (some s) env environ).trace =
      .sendText (interimMsg s) :: .genCall s :: rest := by
  have htail := tryBody_head s env
  rcases htb : tryBody s env with ⟨tb, err⟩
  rw [htb] at htail
  simp only at htail
  rcases err with _ | ex
  · exact ⟨tb.tail, by simp [generate_image_replicate, hs, ht, hi, htb]
                       exact htail⟩
  · exact ⟨tb.tail ++ (exceptHandlers ex env).1,
      by simp [generate_image_replicate, hs, ht, hi, htb]
         rw [htail]; simp⟩

/-- Witness for C9 at the one-space prompt `" "`. -/
theorem whitespace_prompt_not_treated_empty_witness :
    (" " ≠ "" ∧ " ".toList.all Char.isWhitespace = true ∧
     cfgA.replicateToken ≠ PLACEHOLDER ∧ okEnv.replyInterim = .ok ()) ∧
    ∃ rest, (generate_image_replicate cfgA (some " ") okEnv none).trace =
      .sendText (interimMsg " ") :: .genCall " " :: rest :=
  ⟨⟨by decide, by decide, by decide, rfl⟩,
   whitespace_prompt_not_treated_empty cfgA " " okEnv none
     (by decide) (by decide) (by decide) rfl⟩

/-- C1: for every invocation with a non-empty prompt and a configured
credential, when the messaging calls go through, the generation call returns
a list with at least one result URL, and the download returns a 2xx status,
the observable actions are exactly: the interim status message, one
generation call, one download call, one photo reply, and the deletion of the
interim message — in that order — with no exception propagating. -/
theorem success_exact_trace (cfg : Config) (p url : String) (urls : List String)
    (s : Nat) (env : Env) (environ : Option String)
    (hp : p ≠ "") (ht : cfg.replicateToken ≠ PLACEHOLDER)
    (hi : env.replyInterim = .ok ())
    (hr : env.replicateRun = .ok (some (url :: urls)))
    (hg : env.requestsGet = .ok s) (hs2 : 200 ≤ s) (hs3 : s < 300)
    (hph : env.replyPhoto = .ok ()) (hd : env.deleteAfterPhoto = .ok ()) :
    generate_image_replicate cfg (some p) env environ =
      ⟨[.sendText (interimMsg p), .genCall p, .download url,
        .sendPhoto (photoCaption p), .deleteMsg], none, some cfg.replicateToken⟩ := by
  have hns : ¬(400 ≤ s ∧ s < 600) := by omega
  simp [generate_image_replicate, tryBody, raise_for_status,
    hp, ht, hi, hr, hg, hph, hd, hns]

/-- Witness for C1 at a concrete prompt, URL and status 200. -/
theorem success_exact_trace_witness :
    ("a cat" ≠ "" ∧ cfgA.replicateToken ≠ PLACEHOLDER ∧
     okEnv.replyInterim = .ok () ∧
     okEnv.replicateRun = .ok (some ["https://replicate.delivery/out.png"]) ∧
     okEnv.requestsGet = .ok 200 ∧ 200 ≤ 200 ∧ 200 < 300 ∧
     okEnv.replyPhoto = .ok () ∧ okEnv.deleteAfterPhoto = .ok ()) ∧
    generate_image_replicate cfgA (some "a cat") okEnv none =
      ⟨[.sendText (interimMsg "a cat"), .genCall "a cat",
        .download "https://replicate.delivery/out.png",
        .sendPhoto (photoCaption "a cat"), .deleteMsg], none,
        some cfgA.replicateToken⟩ :=
  ⟨⟨by decide, by decide, rfl, rfl, rfl, by decide, by decide, rfl, rfl⟩,
   success_exact_trace cfgA "a cat" "https://replicate.delivery/out.png" [] 200 okEnv none
     (by decide) (by decide) rfl rfl rfl (by decide) (by decide) rfl rfl⟩

/-- C8: the webhook endpoint acknowledges every well-formed POST with `200`
and the fixed JSON body, scheduling the update for asynchronous processing —
the response is computed by a function that does not take the pipeline's
environment, so it is independent of the downstream pipeline's outcome — and
every non-POST request to the path is answered `405`. -/
theorem webhook_post_ack_nonpost_405 (u : ChatUpdate) (m : Method)
    (hm : m ≠ .post) :
    (webhook_handler .post u).1 = ⟨200, ackBody⟩ ∧
    (webhook_handler .post u).2 = some u ∧
    (webhook_handler m u).1 = ⟨405, "Method Not Allowed"⟩ := by
  refine ⟨rfl, rfl, ?_⟩
  cases m with
  | post => exact absurd rfl hm
  | get => rfl
  | other => rfl

/-- Witness for C8 at a concrete update and the GET method. -/
theorem webhook_post_ack_nonpost_405_witness :
    ((Method.get ≠ Method.post) ∧
     (webhook_handler .post ⟨7, 42, some "hi"⟩).1 = ⟨200, ackBody⟩ ∧
     (webhook_handler .post ⟨7, 42, some "hi"⟩).2 = some ⟨7, 42, some "hi"⟩ ∧
     (webhook_handler .get ⟨7, 42, some "hi"⟩).1 = ⟨405, "Method Not Allowed"⟩) :=
  ⟨by decide, webhook_post_ack_nonpost_405 ⟨7, 42, some "hi"⟩ .get (by decide)⟩

/-- An environment identical to `okEnv` except that the deletion of the
interim message after the photo reply raises. -/
def envDeleteFails : Env := { okEnv with deleteAfterPhoto := .error .genErr }

/-- C10: there is an execution in which the user receives both a photo reply
and an error reply: when the deletion of the interim message raises after
the photo was sent, the catch-all handler sends the generic error message
(and the pipeline still returns normally). -/
theorem photo_and_error_reply_same_run :
    (generate_image_replicate cfgA (some "a cat") envDeleteFails none).trace =
      [.sendText (interimMsg "a cat"), .genCall "a cat",
       .download "https://replicate.delivery/out.png",
       .sendPhoto (photoCaption "a cat"), .deleteMsg,
       .sendText genericErrMsg, .deleteMsg] ∧
    .sendPhoto (photoCaption "a cat") ∈
      (generate_image_replicate cfgA (some "a cat") envDeleteFails none).trace ∧
    .sendText genericErrMsg ∈
      (generate_image_replicate cfgA (some "a cat") envDeleteFails none).trace ∧
    (generate_image_replicate cfgA (some "a cat") envDeleteFails none).raised = none := by
  refine ⟨?_, ?_, ?_, ?_⟩ <;> decide

/-- C2 counterexample: the empty-prompt failure sends its error reply but
makes no attempt to delete any interim message (none exists: the pipeline
returns on line 58 before line 69), so a failing invocation does not always
attempt the deletion. -/
theorem failing_run_without_delete_attempt :
    promptEmpty (some "") ∧
    errorReply (generate_image_replicate cfgA (some "") okEnv none).trace ∧
    Event.deleteMsg ∉ (generate_image_replicate cfgA (some "") okEnv none).trace :=
  ⟨by decide, by decide, by decide⟩

/-- Each `except` clause, when its own calls succeed, performs exactly one
human-readable error reply followed by the deletion of the interim
message. -/
theorem exceptHandlers_trace (env : Env)
    (h8 : env.replyDownloadFail = .ok ()) (h9 : env.deleteInReqHandler = .ok ())
    (h10 : env.replyGeneric = .ok ()) (h11 : env.deleteInGenHandler = .ok ()) :
    ∀ ex, ∃ m, m ∈ errorMsgs ∧
      (exceptHandlers ex env).1 = [.sendText m, .deleteMsg] := by
  intro ex
  cases ex
  · exact ⟨downloadFailMsg, by simp [errorMsgs], by simp [exceptHandlers, h8, h9]⟩
  · exact ⟨genericErrMsg, by simp [errorMsgs], by simp [exceptHandlers, h10, h11]⟩

/-- C2 amended: every failing pipeline invocation sends a human-readable
error reply; it attempts to delete the interim status message exactly when
the failure occurs after the interim message was sent (malformed/empty
service output, download failure, or an exception inside the guarded block)
— failures rejected before the interim message exists (empty prompt,
missing credential) send only the error reply. -/
theorem failure_reply_and_conditional_delete (cfg : Config) (prompt : Option String)
    (env : Env) (environ : Option String) (hok : sendsOk env)
    (hf : preFailure cfg prompt ∨ postFailure cfg prompt env) :
    errorReply (generate_image_replicate cfg prompt env environ).trace ∧
    (Event.deleteMsg ∈ (generate_image_replicate cfg prompt env environ).trace ↔
      ¬ preFailure cfg prompt) := by
  obtain ⟨h1, h2, h3, h4, h5, h6, h7, h8, h9, h10, h11⟩ := hok
  have hhandler := exceptHandlers_trace env h8 h9 h10 h11
  rcases hf with hpre | hpost
  · have hnpn : ¬¬ preFailure cfg prompt := not_not_intro hpre
    rcases hpre with hpe | ⟨hne, ht⟩
    · rcases hpe with h | h <;> subst h
      · have htr : (generate_image_replicate cfg none env environ).trace =
            [.sendText emptyPromptMsg] := by
          simp [generate_image_replicate, h1]
        exact ⟨⟨emptyPromptMsg, by simp [errorMsgs], by simp [htr]⟩,
          iff_of_false (by simp [htr]) hnpn⟩
      · have htr : (generate_image_replicate cfg (some "") env environ).trace =
            [.sendText emptyPromptMsg] := by
          simp [generate_image_replicate, h1]
        exact ⟨⟨emptyPromptMsg, by simp [errorMsgs], by simp [htr]⟩,
          iff_of_false (by simp [htr]) hnpn⟩
    · rcases prompt with _ | p
      · exact absurd (Or.inl rfl) hne
      · have hp : p ≠ "" := fun h => hne (Or.inr (by rw [h]))
        have htr : (generate_image_replicate cfg (some p) env environ).trace =
            [.sendText noTokenMsg] := by
          simp [generate_image_replicate, hp, ht, h2]
        exact ⟨⟨noTokenMsg, by simp [errorMsgs], by simp [htr]⟩,
          iff_of_false (by simp [htr]) hnpn⟩
  · obtain ⟨hne, ht, hd⟩ := hpost
    have hnp : ¬ preFailure cfg prompt := by
      rintro (hpe | ⟨-, hteq⟩)
      · exact hne hpe
      · exact ht hteq
    rcases prompt with _ | p
    · exact absurd (Or.inl rfl) hne
    · have hp : p ≠ "" := fun h => hne (Or.inr (by rw [h]))
      rcases hd with ⟨e, hre⟩ | hrn | hrn | ⟨l, hrl, hlne, hget⟩
      · obtain ⟨m, hm, hhd⟩ := hhandler e
        have htr : (generate_image_replicate cfg (some p) env environ).trace =
            [.sendText (interimMsg p), .genCall p, .sendText m, .deleteMsg] := by
          simp [generate_image_replicate, hp, ht, h3, tryBody, hre, hhd]
        exact ⟨⟨m, hm, by simp [htr]⟩, iff_of_true (by simp [htr]) hnp⟩
      · have htr : (generate_image_replicate cfg (some p) env environ).trace =
            [.sendText (interimMsg p), .genCall p, .sendText noOutputMsg, .deleteMsg] := by
          simp [generate_image_replicate, hp, ht, h3, tryBody, hrn, h6, h7]
        exact ⟨⟨noOutputMsg, by simp [errorMsgs], by simp [htr]⟩,
          iff_of_true (by simp [htr]) hnp⟩
      · have htr : (generate_image_replicate cfg (some p) env environ).trace =
            [.sendText (interimMsg p), .genCall p, .sendText noOutputMsg, .deleteMsg] := by
          simp [generate_image_replicate, hp, ht, h3, tryBody, hrn, h6, h7]
        exact ⟨⟨noOutputMsg, by simp [errorMsgs], by simp [htr]⟩,
          iff_of_true (by simp [htr]) hnp⟩
      · rcases l with _ | ⟨u, urls⟩
        · exact absurd rfl hlne
        · rcases hget with ⟨e, hge⟩ | ⟨s, hgs, hs4, hs6⟩
          · obtain ⟨m, hm, hhd⟩ := hhandler e
            have htr : (generate_image_replicate cfg (some p) env environ).trace =
                [.sendText (interimMsg p), .genCall p, .download u,
                 .sendText m, .deleteMsg] := by
              simp [generate_image_replicate, hp, ht, h3, tryBody, hrl, hge, hhd]
            exact ⟨⟨m, hm, by simp [htr]⟩, iff_of_true (by simp [htr]) hnp⟩
          · have hrfs : raise_for_status s = .error .reqErr := by
              simp [raise_for_status, hs4, hs6]
            obtain ⟨m, hm, hhd⟩ := hhandler .reqErr
            have htr : (generate_image_replicate cfg (some p) env environ).trace =
                [.sendText (interimMsg p), .genCall p, .download u,
                 .sendText m, .deleteMsg] := by
              simp [generate_image_replicate, hp, ht, h3, tryBody, hrl, hgs, hrfs, hhd]
            exact ⟨⟨m, hm, by simp [htr]⟩, iff_of_true (by simp [htr]) hnp⟩

/-- An environment in which the generation call returns a falsy / non-list
output. -/
def envNoOutput : Env := { okEnv with replicateRun := .ok none }

/-- Witness for the amended C2 at a concrete post-interim failure: the
generation call returns no usable output. -/
theorem failure_reply_and_conditional_delete_witness :
    (sendsOk envNoOutput ∧
     (preFailure cfgA (some "a cat") ∨ postFailure cfgA (some "a cat") envNoOutput)) ∧
    (errorReply (generate_image_replicate cfgA (some "a cat") envNoOutput none).trace ∧
     (Event.deleteMsg ∈ (generate_image_replicate cfgA (some "a cat") envNoOutput none).trace ↔
       ¬ preFailure cfgA (some "a cat"))) :=
  ⟨⟨by decide, Or.inr ⟨by decide, by decide, Or.inr (Or.inl rfl)⟩⟩,
   failure_reply_and_conditional_delete cfgA (some "a cat") envNoOutput none (by decide)
     (Or.inr ⟨by decide, by decide, Or.inr (Or.inl rfl)⟩)⟩

/-- An environment in which the interim status send itself raises. -/
def envInterimFails : Env := { okEnv with replyInterim := .error .genErr }

/-- C4 counterexample: when the interim status send (line 69, outside the
`try` block) raises, the exception propagates out of the pipeline, so the
pipeline does not return normally for every behaviour of the external
calls. -/
theorem pipeline_raises_on_interim_failure :
    (generate_image_replicate cfgA (some "a cat") envInterimFails none).raised =
      some .genErr := by decide

/-- C4 amended: exceptions raised by the generation call, the download, or
any call inside the guarded block are caught and handled; but a messaging
call that itself raises outside the guarded block (the empty-prompt reply,
the missing-credential reply, the interim status send) or inside an error
handler propagates out of the pipeline.  When every messaging call returns
normally, the pipeline returns normally for every input and every behaviour
of the generation and download calls. -/
theorem no_raise_when_messaging_ok (cfg : Config) (prompt : Option String)
    (env : Env) (environ : Option String) (hok : sendsOk env) :
    (generate_image_replicate cfg prompt env environ).raised = none := by
  obtain ⟨h1, h2, h3, h4, h5, h6, h7, h8, h9, h10, h11⟩ := hok
  have hhandler : ∀ ex, (exceptHandlers ex env).2 = none := by
    intro ex; cases ex <;> simp [exceptHandlers, h8, h9, h10, h11]
  rcases prompt with _ | p
  · simp [generate_image_replicate, h1]
  · by_cases hp : p = ""
    · simp [generate_image_replicate, hp, h1]
    · by_cases ht : cfg.replicateToken = PLACEHOLDER
      · simp [generate_image_replicate, hp, ht, h2]
      · rcases htb : tryBody p env with ⟨tb, err⟩
        rcases err with _ | ex
        · simp [generate_image_replicate, hp, ht, h3, htb]
        · simp [generate_image_replicate, hp, ht, h3, htb, hhandler]

/-- Witness for the amended C4 at a concrete successful environment. -/
theorem no_raise_when_messaging_ok_witness :
    sendsOk okEnv ∧
    (generate_image_replicate cfgA (some "a cat") okEnv none).raised = none :=
  ⟨by decide, no_raise_when_messaging_ok cfgA (some "a cat") okEnv none (by decide)⟩

/-- An environment in which the download returns HTTP 304 — a non-2xx
status that `raise_for_status` does not reject. -/
def env304 : Env := { okEnv with requestsGet := .ok 304 }

/-- C7 counterexample: with a download status of 304 — not a 2xx — the
pipeline sends the photo reply and no error reply at all, because
`raise_for_status` only raises for 4xx/5xx statuses. -/
theorem non_2xx_download_not_always_failure :
    ¬(200 ≤ 304 ∧ 304 < 300) ∧
    (generate_image_replicate cfgA (some "a cat") env304 none).trace =
      [.sendText (interimMsg "a cat"), .genCall "a cat",
       .download "https://replicate.delivery/out.png",
       .sendPhoto (photoCaption "a cat"), .deleteMsg] ∧
    .sendPhoto (photoCaption "a cat") ∈
      (generate_image_replicate cfgA (some "a cat") env304 none).trace ∧
    ¬ errorReply (generate_image_replicate cfgA (some "a cat") env304 none).trace :=
  ⟨by decide, by decide, by decide, by decide⟩

/-- C7 amended: when the generation call succeeds with a result URL and the
download returns a 4xx or 5xx status (the statuses `raise_for_status`
rejects), the observable actions are exactly: interim message, generation
call, download call, one error reply, deletion of the interim message — so
exactly one error reply, a deletion attempt, and no photo reply.  A non-2xx
status outside 400–599 (such as 304) is instead treated as a successful
download. -/
theorem download_4xx5xx_single_error_reply (cfg : Config) (p url : String)
    (urls : List String) (s : Nat) (env : Env) (environ : Option String)
    (hp : p ≠ "") (ht : cfg.replicateToken ≠ PLACEHOLDER)
    (hi : env.replyInterim = .ok ())
    (hr : env.replicateRun = .ok (some (url :: urls)))
    (hg : env.requestsGet = .ok s) (h4 : 400 ≤ s) (h6 : s < 600)
    (hdl : env.replyDownloadFail = .ok ()) (hdel : env.deleteInReqHandler = .ok ()) :
    generate_image_replicate cfg (some p) env environ =
      ⟨[.sendText (interimMsg p), .genCall p, .download url,
        .sendText downloadFailMsg, .deleteMsg], none, some cfg.replicateToken⟩ := by
  have hrfs : raise_for_status s = .error .reqErr := by
    simp [raise_for_status, h4, h6]
  simp [generate_image_replicate, tryBody, exceptHandlers,
    hp, ht, hi, hr, hg, hrfs, hdl, hdel]

/-- An environment in which the download returns HTTP 404. -/
def env404 : Env := { okEnv with requestsGet := .ok 404 }

/-- Witness for the amended C7 at a concrete 404 download. -/
theorem download_4xx5xx_single_error_reply_witness :
    ("a cat" ≠ "" ∧ cfgA.replicateToken ≠ PLACEHOLDER ∧
     env404.replyInterim = .ok () ∧
     env404.replicateRun = .ok (some ["https://replicate.delivery/out.png"]) ∧
     env404.requestsGet = .ok 404 ∧ 400 ≤ 404 ∧ 404 < 600 ∧
     env404.replyDownloadFail = .ok () ∧ env404.deleteInReqHandler = .ok ()) ∧
    generate_image_replicate cfgA (some "a cat") env404 none =
      ⟨[.sendText (interimMsg "a cat"), .genCall "a cat",
        .download "https://replicate.delivery/out.png",
        .sendText downloadFailMsg, .deleteMsg], none, some cfgA.replicateToken⟩ :=
  ⟨⟨by decide, by decide, rfl, rfl, rfl, by decide, by decide, rfl, rfl⟩,
   download_4xx5xx_single_error_reply cfgA "a cat" "https://replicate.delivery/out.png"
     [] 404 env404 none (by decide) (by decide) rfl rfl rfl
     (by decide) (by decide) rfl rfl⟩

end BotWebhook
